import Mathlib

/-!
Verification of `lazytables` (src/lazytables.py).

The module provides a lazy, cache-backed namespace over named external
"tables".  We embed the runtime behaviour of the three relevant pieces:

* `_get_cls_table_mapping` (definition-time name-mapping resolution),
* `_TableReader.__get__` (the read accessor / descriptor),
* `_TableWriter.__call__`, `_TableWriter.__getattr__` (the write accessor).

The user-supplied read function is embedded as a pure function
`String → Val`; the user-supplied write function is opaque (its return
value is discarded by the source), so we record each invocation of either
external function as an `Event` in a trace.  Python object mutation is
embedded as explicit state passing on a `TableSpace` record; the `oid`
field models Python object identity (in-place mutation preserves it).
-/

namespace LazyTables

/-- Table values.  `Val.truthy` models Python truthiness (`not data`):
`0`, an empty string, etc. are falsy. -/
inductive Val where
  | vint : Int → Val
  | vstr : String → Val
deriving DecidableEq, Repr

/-- Python truthiness of a value: `bool(v)`. -/
def Val.truthy : Val → Bool
  | .vint n => n != 0
  | .vstr s => s != ""

/-- `d.get(k)` on a Python dict, embedded as an association list in
insertion order (a Python dict holds each key at most once). -/
def dictGet {α : Type} (d : List (String × α)) (k : String) : Option α :=
  match d with
  | [] => none
  | (k', v) :: rest => if k' == k then some v else dictGet rest k

/-- `d[k] = v` on a Python dict: replace in place if the key is present,
else append (insertion order is preserved). -/
def dictSet {α : Type} (d : List (String × α)) (k : String) (v : α) :
    List (String × α) :=
  match d with
  | [] => [(k, v)]
  | (k', v') :: rest =>
    if k' == k then (k, v) :: rest else (k', v') :: dictSet rest k v

/-- One invocation of a user-supplied external function. -/
inductive Event where
  /-- `readFn(key)` was invoked with the resolved key. -/
  | readCall : String → Event
  /-- `writeFn(key, value, **kwargs)` was invoked. -/
  | writeCall : String → Val → List (String × Val) → Event
deriving DecidableEq, Repr

/-- The per-instance state set up by the generated `__init__`
(`_table_mapping` lives on the class but is read through the instance).
`_write_func_callable` embeds `callable(self._write_func)`; the write
callable itself is opaque, so only its callability matters to control
flow.  `oid` stands for Python object identity. -/
structure TableSpace where
  oid : Nat
  _table_mapping : List (String × String)
  _read_func : String → Val
  _write_func_callable : Bool
  _cache : Bool
  _data : List (String × Val)

/-- The generated `__init__`: the cache starts empty; nothing is read or
written at construction. -/
def makeTableSpace (oid : Nat) (mapping : List (String × String))
    (reader : String → Val) (writerCallable : Bool) (cache : Bool) :
    TableSpace :=
  { oid := oid
    _table_mapping := mapping
    _read_func := reader
    _write_func_callable := writerCallable
    _cache := cache
    _data := [] }

/-- The `_TableReader` descriptor: `key` is the declared attribute name,
`value` the resolved resource key passed to the read function. -/
structure TableReader where
  key : String
  value : String

/-- Result of a read access: the returned value, the instance afterwards,
and the external calls made. -/
structure ReadResult where
  value : Val
  tables : TableSpace
  events : List Event

/-- `_TableReader.__get__`: with caching off, always call the read
function; with caching on, return `_data.get(self.key)` when it is
truthy, otherwise call the read function.  The source never assigns the
fetched value into `_data` on this path. -/
def TableReader.get (self : TableReader) (inst : TableSpace) : ReadResult :=
  if !inst._cache then
    ⟨inst._read_func self.value, inst, [Event.readCall self.value]⟩
  else
    match dictGet inst._data self.key with
    | some d =>
      if d.truthy then ⟨d, inst, []⟩
      else ⟨inst._read_func self.value, inst, [Event.readCall self.value]⟩
    | none => ⟨inst._read_func self.value, inst, [Event.readCall self.value]⟩

/-- Attribute read `inst.name`: the decorator installs
`_TableReader(name, mapping[name])` for every declared table, so access
dispatches to `TableReader.get`; an undeclared name has no descriptor. -/
def attrRead (inst : TableSpace) (name : String) : Option ReadResult :=
  match dictGet inst._table_mapping name with
  | some v => some (TableReader.get ⟨name, v⟩ inst)
  | none => none

/-- `n` successive attribute reads through the same descriptor, threading
the instance state and concatenating the event traces. -/
def readN (key value : String) : TableSpace → Nat → TableSpace × List Event
  | inst, 0 => (inst, [])
  | inst, n + 1 =>
    let r := TableReader.get ⟨key, value⟩ inst
    let rest := readN key value r.tables n
    (rest.1, r.events ++ rest.2)

/-- A concrete read function used by concrete evaluations: every fetched
value is a non-empty string, hence truthy. -/
def demoRead : String → Val := fun k => Val.vstr ("data:" ++ k)

/-- The first positional argument of `_TableWriter.__call__`: the source
branches on `isinstance(name_or_mapping, dict)`. -/
inductive NameOrMapping where
  | name : String → NameOrMapping
  | mapping : List (String × Val) → NameOrMapping

/-- The errors a write call can raise.  `noWriteFunc` and `invalidName`
are `AttributeError`s in the source, `badArgs` is a `ValueError`, and
`typeErr` is the `TypeError` Python raises when binding more positional
arguments than `__call__(self, name_or_mapping, data=None, **kwargs)`
accepts. -/
inductive WriteError where
  | noWriteFunc : WriteError
  | badArgs : WriteError
  | invalidName : String → WriteError
  | typeErr : WriteError
deriving DecidableEq, Repr

/-- Result of a write call: `error = none` means the call returned
normally (returning `tables`, the owning TableSpace); on an error,
`tables` holds the state after the mutations already performed and
`events` the external calls already made before the exception. -/
structure WriteResult where
  error : Option WriteError
  tables : TableSpace
  events : List Event

/-- The `for table_name, data in mapping.items()` loop of
`_TableWriter.__call__`: per entry, raise `AttributeError` when the name
is not declared, otherwise invoke the write function on the resolved key
and then set `_data[table_name] = data`.  An exception aborts the loop,
keeping the mutations and invocations already performed. -/
def writeLoop (kwargs : List (String × Val)) :
    TableSpace → List (String × Val) → WriteResult
  | inst, [] => ⟨none, inst, []⟩
  | inst, (table_name, data) :: rest =>
    match dictGet inst._table_mapping table_name with
    | none => ⟨some (WriteError.invalidName table_name), inst, []⟩
    | some table_id =>
      let inst1 : TableSpace := { inst with _data := dictSet inst._data table_name data }
      let r := writeLoop kwargs inst1 rest
      ⟨r.error, r.tables, Event.writeCall table_id data kwargs :: r.events⟩

/-- The body of `_TableWriter.__call__`: first the configuration check
(`callable(self.tables._write_func)`), then the argument-shape check
(name without data, or mapping with data, is a `ValueError`), then the
per-entry loop; a single write is the loop on the one-entry mapping
`{name_or_mapping: data}`. -/
def TableWriter.call (inst : TableSpace) (name_or_mapping : NameOrMapping)
    (data : Option Val) (kwargs : List (String × Val)) : WriteResult :=
  if !inst._write_func_callable then
    ⟨some WriteError.noWriteFunc, inst, []⟩
  else
    match name_or_mapping, data with
    | NameOrMapping.name _, none => ⟨some WriteError.badArgs, inst, []⟩
    | NameOrMapping.mapping _, some _ => ⟨some WriteError.badArgs, inst, []⟩
    | NameOrMapping.name n, some d => writeLoop kwargs inst [(n, d)]
    | NameOrMapping.mapping m, none => writeLoop kwargs inst m

/-- A call `tables.write(nm, *posArgs, **kwargs)`: Python binds the
positional arguments of `__call__(self, name_or_mapping, data=None,
**kwargs)` before the body runs, so zero or one positional argument
after `name_or_mapping` reaches the body and any more raise `TypeError`
without executing it. -/
def writeArgs (inst : TableSpace) (name_or_mapping : NameOrMapping)
    (posArgs : List Val) (kwargs : List (String × Val)) : WriteResult :=
  match posArgs with
  | [] => TableWriter.call inst name_or_mapping none kwargs
  | [d] => TableWriter.call inst name_or_mapping (some d) kwargs
  | _ => ⟨some WriteError.typeErr, inst, []⟩

/-- `_TableWriter.__getattr__`: `tables.write.tableName(data, *args,
**kwargs)` returns a wrapper forwarding to
`self(table_name, data, *args, **kwargs)`. -/
def write_wrapper (inst : TableSpace) (table_name : String) (data : Val)
    (args : List Val) (kwargs : List (String × Val)) : WriteResult :=
  writeArgs inst (NameOrMapping.name table_name) (data :: args) kwargs

/-- The value of a class attribute as `_get_cls_table_mapping` inspects
it: an explicit string key, the Ellipsis placeholder, a callable, or any
other non-callable object. -/
inductive ClsVal where
  | str : String → ClsVal
  | ellipsis : ClsVal
  | func : ClsVal
  | other : ClsVal
deriving DecidableEq, Repr

/-- `callable(value)` for a class-attribute value. -/
def ClsVal.isCallable : ClsVal → Bool
  | .func => true
  | _ => false

/-- `key.startswith("_")`: whether the attribute name begins with an
underscore. -/
def startsUnderscore (key : String) : Bool :=
  match key.data with
  | [] => false
  | c :: _ => c == '_'

/-- `valid_item(key, value)`: a callable value or an underscore name is
not a table; a table named `read` or `write` raises `ValueError` (the
source message also quotes the name). -/
def valid_item (key : String) (value : ClsVal) : Except String Bool :=
  if value.isCallable || startsUnderscore key then Except.ok false
  else if key == "read" || key == "write" then
    Except.error ("Invalid table name, " ++ key ++ ". If defined, " ++ key
      ++ " must be a function.")
  else Except.ok true

/-- The `names_and_values_given` comprehension over `cls.__dict__`:
keep the entries `valid_item` accepts, replacing an Ellipsis value by the
attribute name; a `ValueError` from `valid_item` aborts at the first
offending entry. -/
def filterTables : List (String × ClsVal) → Except String (List (String × ClsVal))
  | [] => Except.ok []
  | (k, v) :: rest =>
    match valid_item k v with
    | Except.error e => Except.error e
    | Except.ok keep =>
      match filterTables rest with
      | Except.error e => Except.error e
      | Except.ok tail =>
        if keep then
          Except.ok ((k, if v = ClsVal.ellipsis then ClsVal.str k else v) :: tail)
        else Except.ok tail

/-- The `only_names_given` comprehension over `cls.__annotations__`:
`valid_item(k, k)` is checked first (the value is the name string), then
names already present in `names_and_values_given` are skipped. -/
def filterAnnots (done : List (String × ClsVal)) :
    List String → Except String (List (String × ClsVal))
  | [] => Except.ok []
  | k :: rest =>
    match valid_item k (ClsVal.str k) with
    | Except.error e => Except.error e
    | Except.ok keep =>
      match filterAnnots done rest with
      | Except.error e => Except.error e
      | Except.ok tail =>
        if keep && !(done.any fun p => p.1 == k) then
          Except.ok ((k, ClsVal.str k) :: tail)
        else Except.ok tail

/-- `_get_cls_table_mapping(cls)` given the class `__dict__` items and
annotation names in order: build `names_and_values_given`, then
`only_names_given`, then merge (`update` never overwrites here because
`only_names_given` excludes keys already present). -/
def _get_cls_table_mapping (dict_items : List (String × ClsVal))
    (annots : List String) : Except String (List (String × ClsVal)) :=
  match filterTables dict_items with
  | Except.error e => Except.error e
  | Except.ok nv =>
    match filterAnnots nv annots with
    | Except.error e => Except.error e
    | Except.ok onames => Except.ok (nv ++ onames)

/-- The class data the `lazytables` decorator attaches at definition
time. -/
structure LazyClass where
  _table_mapping : List (String × ClsVal)
deriving DecidableEq, Repr

/-- The `lazytables(table_type)` decorator applied to a class: it calls
`_get_cls_table_mapping` at class-definition time, so a `ValueError`
there escapes before the class (and hence any instance) exists. -/
def lazytables_decorator (dict_items : List (String × ClsVal))
    (annots : List String) : Except String LazyClass :=
  match _get_cls_table_mapping dict_items annots with
  | Except.error e => Except.error e
  | Except.ok m => Except.ok ⟨m⟩

/-- Concrete name mapping used by witnesses. -/
def demoMapping : List (String × String) :=
  [("t", "key-t"), ("a", "key-a"), ("b", "key-b")]

/-- Concrete TableSpace used by witnesses, with the writer callable and
cache flags as arguments. -/
def demoSpace (writer cache : Bool) : TableSpace :=
  makeTableSpace 0 demoMapping demoRead writer cache

theorem dictGet_dictSet_self {α : Type} (d : List (String × α)) (k : String)
    (v : α) : dictGet (dictSet d k v) k = some v := by
  induction d with
  | nil => simp [dictGet, dictSet]
  | cons p rest ih =>
    obtain ⟨k', v'⟩ := p
    by_cases h : k' = k
    · simp [dictGet, dictSet, h]
    · simp [dictGet, dictSet, h, ih]

/-- C1: with `cache=True`, the first read of `t` is claimed to store the
fetched value in the cache so that a second read does not invoke
`readFn` again.  The code never assigns into `_data` in
`_TableReader.__get__`, so at this input — `readFn` returning the truthy
value `data:t` — both reads invoke `readFn` (two `readCall` events) and
the instance (its cache included) is left exactly as constructed,
contradicting the claim and the source docstring "the same data will
never be read twice". -/
theorem c1_read_does_not_populate_cache :
    (demoRead "t").truthy = true ∧
    readN "t" "t" (makeTableSpace 0 [("t", "t")] demoRead false true) 2
      = (makeTableSpace 0 [("t", "t")] demoRead false true,
         [Event.readCall "t", Event.readCall "t"]) :=
  ⟨rfl, rfl⟩

/-- C2 counterexample: the claim quantifies over both values of the
`cache` flag and all written values.  With `cache=False` the read after
`tables.write("t", 1)` invokes `readFn` and returns its result, which
differs from the written value; with `cache=True` the same happens when
the written value `0` is falsy. -/
theorem c2_counterexample :
    (let w := writeArgs (makeTableSpace 0 [("t", "t")] demoRead true false)
      (NameOrMapping.name "t") [Val.vint 1] []
     w.error = none ∧
     attrRead w.tables "t"
       = some ⟨demoRead "t", w.tables, [Event.readCall "t"]⟩ ∧
     demoRead "t" ≠ Val.vint 1) ∧
    (let w := writeArgs (makeTableSpace 1 [("t", "t")] demoRead true true)
      (NameOrMapping.name "t") [Val.vint 0] []
     w.error = none ∧
     attrRead w.tables "t"
       = some ⟨demoRead "t", w.tables, [Event.readCall "t"]⟩ ∧
     demoRead "t" ≠ Val.vint 0) :=
  ⟨⟨rfl, rfl, by decide⟩, ⟨rfl, rfl, by decide⟩⟩

/-- C2 (amended): after a successful `tables.write("t", v)` on a
TableSpace with `cache=True` and `v` truthy (non-empty), a subsequent
read of `t` returns `v` itself with no `readFn` invocation. -/
theorem c2_write_then_read_cached (inst : TableSpace) (t k : String)
    (v : Val) (kwargs : List (String × Val))
    (hm : dictGet inst._table_mapping t = some k)
    (hw : inst._write_func_callable = true)
    (hc : inst._cache = true)
    (hv : v.truthy = true) :
    (writeArgs inst (NameOrMapping.name t) [v] kwargs).error = none ∧
    attrRead (writeArgs inst (NameOrMapping.name t) [v] kwargs).tables t
      = some ⟨v, (writeArgs inst (NameOrMapping.name t) [v] kwargs).tables,
              []⟩ := by
  simp [writeArgs, TableWriter.call, hw, writeLoop, hm, attrRead,
    TableReader.get, hc, dictGet_dictSet_self, hv]

/-- C2 witness: the amended theorem applied at a concrete instance. -/
theorem c2_witness :
    dictGet (demoSpace true true)._table_mapping "t" = some "key-t" ∧
    (demoSpace true true)._write_func_callable = true ∧
    (demoSpace true true)._cache = true ∧
    (Val.vint 7).truthy = true ∧
    ((writeArgs (demoSpace true true) (NameOrMapping.name "t")
        [Val.vint 7] []).error = none ∧
     attrRead (writeArgs (demoSpace true true) (NameOrMapping.name "t")
        [Val.vint 7] []).tables "t"
       = some ⟨Val.vint 7,
               (writeArgs (demoSpace true true) (NameOrMapping.name "t")
                 [Val.vint 7] []).tables, []⟩) :=
  ⟨rfl, rfl, rfl, by decide,
    c2_write_then_read_cached (demoSpace true true) "t" "key-t" (Val.vint 7)
      [] rfl rfl rfl (by decide)⟩

/-- C3: with `cache=False`, each of `n` successive reads of declared
table `t` (resolved key `k`) invokes `readFn(k)` once — `n` reads give
exactly `n` `readCall k` events — and the instance, its `_data` cache
map included, is left completely unchanged. -/
theorem c3_cache_disabled (inst : TableSpace) (t k : String) (n : Nat)
    (hm : dictGet inst._table_mapping t = some k)
    (hc : inst._cache = false) :
    readN t k inst n = (inst, List.replicate n (Event.readCall k)) ∧
    attrRead inst t = some ⟨inst._read_func k, inst, [Event.readCall k]⟩ := by
  constructor
  · induction n with
    | zero => simp [readN]
    | succ m ih => simp [readN, TableReader.get, hc, ih, List.replicate_succ]
  · simp [attrRead, hm, TableReader.get, hc]

/-- C3 witness: three reads on a concrete cache-disabled instance. -/
theorem c3_witness :
    dictGet (demoSpace false false)._table_mapping "t" = some "key-t" ∧
    (demoSpace false false)._cache = false ∧
    (readN "t" "key-t" (demoSpace false false) 3
       = (demoSpace false false, List.replicate 3 (Event.readCall "key-t")) ∧
     attrRead (demoSpace false false) "t"
       = some ⟨demoRead "key-t", demoSpace false false,
               [Event.readCall "key-t"]⟩) :=
  ⟨rfl, rfl, c3_cache_disabled (demoSpace false false) "t" "key-t" 3 rfl rfl⟩

theorem writeLoop_valid (kwargs : List (String × Val)) (keyOf : String → String) :
    ∀ (items : List (String × Val)) (inst : TableSpace),
    (∀ p ∈ items, dictGet inst._table_mapping p.1 = some (keyOf p.1)) →
    writeLoop kwargs inst items =
      ⟨none,
       { inst with
          _data := items.foldl (fun d p => dictSet d p.1 p.2) inst._data },
       items.map fun p => Event.writeCall (keyOf p.1) p.2 kwargs⟩ := by
  intro items
  induction items with
  | nil => intro inst _; simp [writeLoop]
  | cons p rest ih =>
    intro inst h
    obtain ⟨n, v⟩ := p
    have hn : dictGet inst._table_mapping n = some (keyOf n) :=
      h (n, v) (List.mem_cons_self _ _)
    have hr := ih { inst with _data := dictSet inst._data n v }
      (fun q hq => h q (List.mem_cons_of_mem _ hq))
    simp [writeLoop, hn, hr]

theorem writeLoop_invalid (kwargs : List (String × Val))
    (keyOf : String → String) :
    ∀ (pre : List (String × Val)) (inst : TableSpace) (bad : String)
      (v : Val) (post : List (String × Val)),
    (∀ p ∈ pre, dictGet inst._table_mapping p.1 = some (keyOf p.1)) →
    dictGet inst._table_mapping bad = none →
    writeLoop kwargs inst (pre ++ (bad, v) :: post) =
      ⟨some (WriteError.invalidName bad),
       { inst with
          _data := pre.foldl (fun d p => dictSet d p.1 p.2) inst._data },
       pre.map fun p => Event.writeCall (keyOf p.1) p.2 kwargs⟩ := by
  intro pre
  induction pre with
  | nil => intro inst bad v post _ hbad; simp [writeLoop, hbad]
  | cons p rest ih =>
    intro inst bad v post h hbad
    obtain ⟨n, w⟩ := p
    have hn : dictGet inst._table_mapping n = some (keyOf n) :=
      h (n, w) (List.mem_cons_self _ _)
    have hr := ih { inst with _data := dictSet inst._data n w } bad v post
      (fun q hq => h q (List.mem_cons_of_mem _ hq)) hbad
    simp [writeLoop, hn, hr]

/-- C4: every successful write — batch, single, or attribute-style —
invokes `writeFn` on the resolved key and value and then sets
`cache[name] = value`; no hypothesis mentions `_cache`, so this holds
unconditionally, a `cache=False` TableSpace included. -/
theorem c4_write_through (inst : TableSpace) (items : List (String × Val))
    (t : String) (v : Val) (kwargs : List (String × Val))
    (keyOf : String → String)
    (hw : inst._write_func_callable = true)
    (hitems : ∀ p ∈ items, dictGet inst._table_mapping p.1 = some (keyOf p.1))
    (ht : dictGet inst._table_mapping t = some (keyOf t)) :
    writeArgs inst (NameOrMapping.mapping items) [] kwargs
      = ⟨none,
         { inst with
            _data := items.foldl (fun d p => dictSet d p.1 p.2) inst._data },
         items.map fun p => Event.writeCall (keyOf p.1) p.2 kwargs⟩ ∧
    writeArgs inst (NameOrMapping.name t) [v] kwargs
      = ⟨none, { inst with _data := dictSet inst._data t v },
         [Event.writeCall (keyOf t) v kwargs]⟩ ∧
    write_wrapper inst t v [] kwargs
      = ⟨none, { inst with _data := dictSet inst._data t v },
         [Event.writeCall (keyOf t) v kwargs]⟩ := by
  refine ⟨?_, ?_, ?_⟩ <;>
    simp [writeArgs, write_wrapper, TableWriter.call, hw,
      writeLoop_valid kwargs keyOf items inst hitems, writeLoop, ht]

/-- C4 witness: a batch of two writes and a single write on a concrete
TableSpace with `cache=False`; the cache map is updated regardless. -/
theorem c4_witness :
    (demoSpace true false)._write_func_callable = true ∧
    (∀ p ∈ [("a", Val.vint 1), ("b", Val.vint 2)],
      dictGet (demoSpace true false)._table_mapping p.1
        = some ("key-" ++ p.1)) ∧
    dictGet (demoSpace true false)._table_mapping "t" = some ("key-" ++ "t") ∧
    writeArgs (demoSpace true false)
        (NameOrMapping.mapping [("a", Val.vint 1), ("b", Val.vint 2)]) [] []
      = ⟨none,
         { demoSpace true false with
            _data := [("a", Val.vint 1), ("b", Val.vint 2)].foldl
              (fun d p => dictSet d p.1 p.2) (demoSpace true false)._data },
         [("a", Val.vint 1), ("b", Val.vint 2)].map
           fun p => Event.writeCall ("key-" ++ p.1) p.2 []⟩ :=
  ⟨rfl, by decide, rfl,
   (c4_write_through (demoSpace true false)
     [("a", Val.vint 1), ("b", Val.vint 2)] "t" (Val.vint 3) []
     (fun n => "key-" ++ n) rfl (by decide) rfl).1⟩

/-- C6: a single-table write whose name is not declared raises the
lookup error (`AttributeError` in the source) with no `writeFn`
invocation (empty event trace) and no state change. -/
theorem c6_invalid_name (inst : TableSpace) (n : String) (v : Val)
    (kwargs : List (String × Val))
    (hw : inst._write_func_callable = true)
    (hn : dictGet inst._table_mapping n = none) :
    writeArgs inst (NameOrMapping.name n) [v] kwargs
      = ⟨some (WriteError.invalidName n), inst, []⟩ := by
  simp [writeArgs, TableWriter.call, hw, writeLoop, hn]

/-- C6 witness: `tables.write("nonexistent", v)` on a concrete space. -/
theorem c6_witness :
    (demoSpace true true)._write_func_callable = true ∧
    dictGet (demoSpace true true)._table_mapping "nonexistent" = none ∧
    writeArgs (demoSpace true true) (NameOrMapping.name "nonexistent")
        [Val.vint 1] []
      = ⟨some (WriteError.invalidName "nonexistent"), demoSpace true true,
         []⟩ :=
  ⟨rfl, rfl,
   c6_invalid_name (demoSpace true true) "nonexistent" (Val.vint 1) [] rfl rfl⟩

/-- C5 counterexample: the claim says extra positional arguments are
forwarded verbatim to `writeFn`.  At this concrete input — one extra
positional argument in either call shape — the call raises `TypeError`
during argument binding (`__call__` accepts no positional parameters
beyond `name_or_mapping` and `data`), `writeFn` is never invoked (empty
event trace), and nothing is written. -/
theorem c5_counterexample :
    write_wrapper (demoSpace true true) "t" (Val.vint 1) [Val.vint 2] []
      = ⟨some WriteError.typeErr, demoSpace true true, []⟩ ∧
    writeArgs (demoSpace true true) (NameOrMapping.name "t")
        [Val.vint 1, Val.vint 2] []
      = ⟨some WriteError.typeErr, demoSpace true true, []⟩ :=
  ⟨rfl, rfl⟩

/-- C5 (amended): extra keyword arguments are forwarded verbatim to
`writeFn` after the mandatory key and value, in both the
`write(name, value, **kwargs)` and `write.tableName(value, **kwargs)`
forms; extra positional arguments are not accepted — they raise a
`TypeError` before any `writeFn` invocation. -/
theorem c5_kwargs_forwarded (inst : TableSpace) (t k : String) (v : Val)
    (kwargs : List (String × Val)) (extra : Val) (rest : List Val)
    (hm : dictGet inst._table_mapping t = some k)
    (hw : inst._write_func_callable = true) :
    writeArgs inst (NameOrMapping.name t) [v] kwargs
      = ⟨none, { inst with _data := dictSet inst._data t v },
         [Event.writeCall k v kwargs]⟩ ∧
    write_wrapper inst t v [] kwargs
      = ⟨none, { inst with _data := dictSet inst._data t v },
         [Event.writeCall k v kwargs]⟩ ∧
    write_wrapper inst t v (extra :: rest) kwargs
      = ⟨some WriteError.typeErr, inst, []⟩ ∧
    writeArgs inst (NameOrMapping.name t) (v :: extra :: rest) kwargs
      = ⟨some WriteError.typeErr, inst, []⟩ := by
  refine ⟨?_, ?_, ?_, ?_⟩ <;>
    simp [writeArgs, write_wrapper, TableWriter.call, hw, writeLoop, hm]

/-- C5 witness: a keyword argument reaching `writeFn` and a rejected
extra positional argument, on a concrete space. -/
theorem c5_witness :
    dictGet (demoSpace true true)._table_mapping "t" = some "key-t" ∧
    (demoSpace true true)._write_func_callable = true ∧
    (writeArgs (demoSpace true true) (NameOrMapping.name "t") [Val.vint 1]
        [("mode", Val.vstr "append")]
      = ⟨none,
         { demoSpace true true with
            _data := dictSet (demoSpace true true)._data "t" (Val.vint 1) },
         [Event.writeCall "key-t" (Val.vint 1)
            [("mode", Val.vstr "append")]]⟩ ∧
     write_wrapper (demoSpace true true) "t" (Val.vint 1) []
        [("mode", Val.vstr "append")]
      = ⟨none,
         { demoSpace true true with
            _data := dictSet (demoSpace true true)._data "t" (Val.vint 1) },
         [Event.writeCall "key-t" (Val.vint 1)
            [("mode", Val.vstr "append")]]⟩ ∧
     write_wrapper (demoSpace true true) "t" (Val.vint 1) [Val.vstr "x"]
        [("mode", Val.vstr "append")]
      = ⟨some WriteError.typeErr, demoSpace true true, []⟩ ∧
     writeArgs (demoSpace true true) (NameOrMapping.name "t")
        [Val.vint 1, Val.vstr "x"] [("mode", Val.vstr "append")]
      = ⟨some WriteError.typeErr, demoSpace true true, []⟩) :=
  ⟨rfl, rfl,
   c5_kwargs_forwarded (demoSpace true true) "t" "key-t" (Val.vint 1)
     [("mode", Val.vstr "append")] (Val.vstr "x") [] rfl rfl⟩

/-- C8: both writes of `tables.write("a", v1).write("b", v2)` succeed
and return the owning TableSpace itself — the same `oid`, with only the
`_data` cache map changed — and the chain is behaviorally identical to
two sequential single writes and to the batch
`write({"a": v1, "b": v2})`: same final state, same `writeFn`
invocations in the same order. -/
theorem c8_chaining (inst : TableSpace) (a b ka kb : String) (v1 v2 : Val)
    (kwargs : List (String × Val))
    (hw : inst._write_func_callable = true)
    (ha : dictGet inst._table_mapping a = some ka)
    (hb : dictGet inst._table_mapping b = some kb) :
    (writeArgs inst (NameOrMapping.name a) [v1] kwargs).error = none ∧
    (writeArgs inst (NameOrMapping.name a) [v1] kwargs).tables
      = { inst with _data := dictSet inst._data a v1 } ∧
    (writeArgs inst (NameOrMapping.name a) [v1] kwargs).tables.oid
      = inst.oid ∧
    (writeArgs (writeArgs inst (NameOrMapping.name a) [v1] kwargs).tables
        (NameOrMapping.name b) [v2] kwargs).error = none ∧
    (writeArgs (writeArgs inst (NameOrMapping.name a) [v1] kwargs).tables
        (NameOrMapping.name b) [v2] kwargs).tables
      = { inst with _data := dictSet (dictSet inst._data a v1) b v2 } ∧
    (writeArgs (writeArgs inst (NameOrMapping.name a) [v1] kwargs).tables
        (NameOrMapping.name b) [v2] kwargs).tables.oid = inst.oid ∧
    (writeArgs inst (NameOrMapping.name a) [v1] kwargs).events
        ++ (writeArgs (writeArgs inst (NameOrMapping.name a) [v1]
              kwargs).tables (NameOrMapping.name b) [v2] kwargs).events
      = [Event.writeCall ka v1 kwargs, Event.writeCall kb v2 kwargs] ∧
    writeArgs inst (NameOrMapping.mapping [(a, v1), (b, v2)]) [] kwargs
      = ⟨none,
         { inst with _data := dictSet (dictSet inst._data a v1) b v2 },
         [Event.writeCall ka v1 kwargs, Event.writeCall kb v2 kwargs]⟩ := by
  have h1 : writeArgs inst (NameOrMapping.name a) [v1] kwargs
      = ⟨none, { inst with _data := dictSet inst._data a v1 },
         [Event.writeCall ka v1 kwargs]⟩ := by
    simp [writeArgs, TableWriter.call, hw, writeLoop, ha]
  have h2 : writeArgs { inst with _data := dictSet inst._data a v1 }
        (NameOrMapping.name b) [v2] kwargs
      = ⟨none,
         { inst with _data := dictSet (dictSet inst._data a v1) b v2 },
         [Event.writeCall kb v2 kwargs]⟩ := by
    simp [writeArgs, TableWriter.call, hw, writeLoop, hb]
  have h3 : writeArgs inst (NameOrMapping.mapping [(a, v1), (b, v2)]) []
        kwargs
      = ⟨none,
         { inst with _data := dictSet (dictSet inst._data a v1) b v2 },
         [Event.writeCall ka v1 kwargs, Event.writeCall kb v2 kwargs]⟩ := by
    simp [writeArgs, TableWriter.call, hw, writeLoop, ha, hb]
  simp [h1, h2, h3]

/-- C8 witness: the chain at a concrete instance. -/
theorem c8_witness :
    (demoSpace true true)._write_func_callable = true ∧
    dictGet (demoSpace true true)._table_mapping "a" = some "key-a" ∧
    dictGet (demoSpace true true)._table_mapping "b" = some "key-b" ∧
    ((writeArgs (demoSpace true true) (NameOrMapping.name "a")
        [Val.vint 1] []).tables.oid = (demoSpace true true).oid ∧
     writeArgs (demoSpace true true)
        (NameOrMapping.mapping [("a", Val.vint 1), ("b", Val.vint 2)]) [] []
      = ⟨none,
         { demoSpace true true with
            _data := dictSet (dictSet (demoSpace true true)._data "a"
              (Val.vint 1)) "b" (Val.vint 2) },
         [Event.writeCall "key-a" (Val.vint 1) [],
          Event.writeCall "key-b" (Val.vint 2) []]⟩) :=
  ⟨rfl, rfl, rfl,
   (c8_chaining (demoSpace true true) "a" "b" "key-a" "key-b" (Val.vint 1)
     (Val.vint 2) [] rfl rfl rfl).2.2.1,
   (c8_chaining (demoSpace true true) "a" "b" "key-a" "key-b" (Val.vint 1)
     (Val.vint 2) [] rfl rfl rfl).2.2.2.2.2.2.2⟩

/-- C9: a batch write over `pre ++ (bad, v) :: post`, with every name in
`pre` declared and `bad` undeclared, is fail-fast without rollback: it
raises the lookup error for `bad`, every `pre` entry has been passed to
`writeFn` and written into the cache in iteration order, and neither the
invalid entry nor any later entry causes a `writeFn` invocation or a
cache change. -/
theorem c9_batch_fail_fast (inst : TableSpace) (pre : List (String × Val))
    (bad : String) (v : Val) (post : List (String × Val))
    (kwargs : List (String × Val)) (keyOf : String → String)
    (hw : inst._write_func_callable = true)
    (hpre : ∀ p ∈ pre, dictGet inst._table_mapping p.1 = some (keyOf p.1))
    (hbad : dictGet inst._table_mapping bad = none) :
    writeArgs inst (NameOrMapping.mapping (pre ++ (bad, v) :: post)) []
        kwargs
      = ⟨some (WriteError.invalidName bad),
         { inst with
            _data := pre.foldl (fun d p => dictSet d p.1 p.2) inst._data },
         pre.map fun p => Event.writeCall (keyOf p.1) p.2 kwargs⟩ := by
  simp [writeArgs, TableWriter.call, hw,
    writeLoop_invalid kwargs keyOf pre inst bad v post hpre hbad]

/-- C9 witness: `write({"a": 1, "nonexistent": 2, "b": 3})` on a
concrete space writes `a`, then aborts. -/
theorem c9_witness :
    (demoSpace true true)._write_func_callable = true ∧
    (∀ p ∈ [("a", Val.vint 1)],
      dictGet (demoSpace true true)._table_mapping p.1
        = some ("key-" ++ p.1)) ∧
    dictGet (demoSpace true true)._table_mapping "nonexistent" = none ∧
    writeArgs (demoSpace true true)
        (NameOrMapping.mapping
          [("a", Val.vint 1), ("nonexistent", Val.vint 2),
           ("b", Val.vint 3)]) [] []
      = ⟨some (WriteError.invalidName "nonexistent"),
         { demoSpace true true with
            _data := [("a", Val.vint 1)].foldl
              (fun d p => dictSet d p.1 p.2) (demoSpace true true)._data },
         [("a", Val.vint 1)].map
           fun p => Event.writeCall ("key-" ++ p.1) p.2 []⟩ :=
  ⟨rfl, by decide, rfl,
   c9_batch_fail_fast (demoSpace true true) [("a", Val.vint 1)]
     "nonexistent" (Val.vint 2) [("b", Val.vint 3)] []
     (fun n => "key-" ++ n) rfl (by decide) rfl⟩

/-- C10: a write call that fails with the configuration error (no write
function) or with the argument-validation error (mapping with a value,
or a name without a value) performs no `writeFn` invocation and leaves
the instance — its cache map included — unchanged; the configuration
check runs first, so when the write function is missing the error is the
configuration error whatever the argument shape. -/
theorem c10_precondition_errors (inst : TableSpace) (nm : NameOrMapping)
    (data : Option Val) (kwargs : List (String × Val)) :
    (inst._write_func_callable = false →
      TableWriter.call inst nm data kwargs
        = ⟨some WriteError.noWriteFunc, inst, []⟩) ∧
    (inst._write_func_callable = true →
      (((∃ n, nm = NameOrMapping.name n) ∧ data = none) ∨
       ((∃ m, nm = NameOrMapping.mapping m) ∧ ∃ d, data = some d)) →
      TableWriter.call inst nm data kwargs
        = ⟨some WriteError.badArgs, inst, []⟩) := by
  constructor
  · intro h; simp [TableWriter.call, h]
  · rintro h (⟨⟨n, rfl⟩, rfl⟩ | ⟨⟨m, rfl⟩, ⟨d, rfl⟩⟩) <;>
      simp [TableWriter.call, h]

/-- C10 witness: a missing write function with a simultaneously invalid
argument shape yields the configuration error (showing the check order),
and a present write function with a mapping plus a value yields the
argument-validation error. -/
theorem c10_witness :
    ((demoSpace false true)._write_func_callable = false ∧
     TableWriter.call (demoSpace false true) (NameOrMapping.name "t") none []
       = ⟨some WriteError.noWriteFunc, demoSpace false true, []⟩) ∧
    ((demoSpace true true)._write_func_callable = true ∧
     TableWriter.call (demoSpace true true)
        (NameOrMapping.mapping [("t", Val.vint 1)]) (some (Val.vint 2)) []
       = ⟨some WriteError.badArgs, demoSpace true true, []⟩) :=
  ⟨⟨rfl, (c10_precondition_errors (demoSpace false true)
      (NameOrMapping.name "t") none []).1 rfl⟩,
   ⟨rfl, (c10_precondition_errors (demoSpace true true)
      (NameOrMapping.mapping [("t", Val.vint 1)]) (some (Val.vint 2)) []).2
      rfl (Or.inr ⟨⟨_, rfl⟩, ⟨_, rfl⟩⟩)⟩⟩

theorem valid_item_reserved (k : String) (v : ClsVal)
    (hk : k = "read" ∨ k = "write") (hv : v.isCallable = false) :
    valid_item k v
      = Except.error ("Invalid table name, " ++ k ++ ". If defined, " ++ k
          ++ " must be a function.") := by
  rcases hk with rfl | rfl <;> simp [valid_item, hv] <;> decide

theorem filterTables_reserved (k : String) (v : ClsVal)
    (hk : k = "read" ∨ k = "write") (hv : v.isCallable = false) :
    ∀ (items : List (String × ClsVal)), (k, v) ∈ items →
    ∃ msg, filterTables items = Except.error msg := by
  intro items
  induction items with
  | nil => intro h; exact absurd h (List.not_mem_nil _)
  | cons p rest ih =>
    intro hmem
    obtain ⟨k', v'⟩ := p
    cases hvi : valid_item k' v' with
    | error e => exact ⟨e, by simp [filterTables, hvi]⟩
    | ok keep =>
      rcases List.mem_cons.mp hmem with heq | hmem'
      · exfalso
        injection heq with h1 h2
        subst h1; subst h2
        rw [valid_item_reserved k v hk hv] at hvi
        exact Except.noConfusion hvi
      · obtain ⟨msg, hmsg⟩ := ih hmem'
        exact ⟨msg, by simp [filterTables, hvi, hmsg]⟩

theorem filterAnnots_reserved (k : String)
    (hk : k = "read" ∨ k = "write") (done : List (String × ClsVal)) :
    ∀ (annots : List String), k ∈ annots →
    ∃ msg, filterAnnots done annots = Except.error msg := by
  intro annots
  induction annots with
  | nil => intro h; exact absurd h (List.not_mem_nil _)
  | cons a rest ih =>
    intro hmem
    cases hvi : valid_item a (ClsVal.str a) with
    | error e => exact ⟨e, by simp [filterAnnots, hvi]⟩
    | ok keep =>
      rcases List.mem_cons.mp hmem with rfl | hmem'
      · exfalso
        rw [valid_item_reserved k (ClsVal.str k) hk rfl] at hvi
        exact Except.noConfusion hvi
      · obtain ⟨msg, hmsg⟩ := ih hmem'
        exact ⟨msg, by simp [filterAnnots, hvi, hmsg]⟩

/-- C7: a class declaring a table literally named `read` or `write` —
either as a `__dict__` entry with a non-callable value or as a bare
annotation — makes `_get_cls_table_mapping`, and hence the `lazytables`
decorator itself, raise the definition error (`ValueError`) when the
class is defined, so no decorated class and no instance is ever
produced. -/
theorem c7_reserved_name (dict_items : List (String × ClsVal))
    (annots : List String) (k : String)
    (hk : k = "read" ∨ k = "write")
    (hdecl : (∃ v, (k, v) ∈ dict_items ∧ v.isCallable = false) ∨
      k ∈ annots) :
    ∃ msg, _get_cls_table_mapping dict_items annots = Except.error msg ∧
      lazytables_decorator dict_items annots = Except.error msg := by
  rcases hdecl with ⟨v, hmem, hv⟩ | hann
  · obtain ⟨msg, hmsg⟩ := filterTables_reserved k v hk hv dict_items hmem
    exact ⟨msg, by simp [_get_cls_table_mapping, hmsg],
      by simp [lazytables_decorator, _get_cls_table_mapping, hmsg]⟩
  · cases hft : filterTables dict_items with
    | error e =>
      exact ⟨e, by simp [_get_cls_table_mapping, hft],
        by simp [lazytables_decorator, _get_cls_table_mapping, hft]⟩
    | ok nv =>
      obtain ⟨msg, hmsg⟩ := filterAnnots_reserved k hk nv annots hann
      exact ⟨msg, by simp [_get_cls_table_mapping, hft, hmsg],
        by simp [lazytables_decorator, _get_cls_table_mapping, hft, hmsg]⟩

/-- C7 witness: a class with `alpha: ...` and `write = "wkey"` fails at
definition time. -/
theorem c7_witness :
    ("write" = "read" ∨ "write" = "write") ∧
    ((∃ v, ("write", v) ∈ [("alpha", ClsVal.ellipsis),
        ("write", ClsVal.str "wkey")] ∧ v.isCallable = false) ∨
      "write" ∈ ([] : List String)) ∧
    ∃ msg,
      _get_cls_table_mapping
          [("alpha", ClsVal.ellipsis), ("write", ClsVal.str "wkey")] []
        = Except.error msg ∧
      lazytables_decorator
          [("alpha", ClsVal.ellipsis), ("write", ClsVal.str "wkey")] []
        = Except.error msg :=
  ⟨Or.inr rfl,
   Or.inl ⟨ClsVal.str "wkey", by decide, rfl⟩,
   c7_reserved_name
     [("alpha", ClsVal.ellipsis), ("write", ClsVal.str "wkey")] [] "write"
     (Or.inr rfl) (Or.inl ⟨ClsVal.str "wkey", by decide, rfl⟩)⟩

end LazyTables
